import Mathlib

/-!
Verification of the resilient stream recorder (src/index.js, second document:
class ResilientStreamRecorder) and the simple retry variant (src/unnamed/part_000)
against the specification.

The recorder is embedded shallowly: the mutable fields of the
ResilientStreamRecorder object become a state record, and each asynchronous
callback of the source (the close/error handlers of the capture subprocess,
the stop request, the completion poller, the re-arm timer of the continuous
ffprobe loop) becomes one step of an explicit step function on that state.
The filesystem is a list of (name, content) pairs; external subprocesses are
opaque: their observable effects (exit code, whether the destination file was
written, elapsed wall-clock time) are inputs of the corresponding step.
-/

namespace FfmpegDemo

/-- One retained recording, as pushed onto this.recordings in the close
handler of recordSegment (src/index.js lines 380-384). -/
structure Segment where
  file : String
  duration : Nat
  index : Nat
deriving DecidableEq, Repr

/-- Sum of the measured durations of a list of segments (ms). -/
def sumDur (l : List Segment) : Nat := (l.map Segment.duration).sum

/-- Destination file name of the capture attempt with the given sequence
index: segment_{sessionId}_{segmentIndex}.mp4 (src/index.js lines 288-291). -/
def segFileName (sessionId idx : Nat) : String :=
  "segment_" ++ Nat.repr sessionId ++ "_" ++ Nat.repr idx ++ ".mp4"

/-- The mutable fields of a ResilientStreamRecorder object, plus bookkeeping
that makes external observations explicit: files is the set of segment files
currently on disk, assigned is the list of sequence indices handed out at
capture creation (in order), sigTermSent records that stop() killed a live
subprocess, merged records that the completion poller fired mergeRecordings,
lastRequestedMs is the remaining duration passed to the most recent capture. -/
structure RecState where
  recordings : List Segment
  totalDurationMs : Nat
  recordedDurationMs : Nat
  isRecording : Bool
  isMonitoring : Bool
  isStreamAvailable : Bool
  consecutiveFailures : Nat
  quickCheckActive : Bool
  deepProbeActive : Bool
  currentProcessLive : Bool
  sigTermSent : Bool
  merged : Bool
  files : List String
  assigned : List Nat
  lastRequestedMs : Option Nat
  lastRequestedTSec : Option Nat
  sessionId : Nat
deriving DecidableEq, Repr

/-- State right after the constructor (src/index.js lines 70-94): all
counters zero, no recordings, not recording, not monitoring. -/
def initState (sid : Nat) : RecState where
  recordings := []
  totalDurationMs := 0
  recordedDurationMs := 0
  isRecording := false
  isMonitoring := false
  isStreamAvailable := false
  consecutiveFailures := 0
  quickCheckActive := false
  deepProbeActive := false
  currentProcessLive := false
  sigTermSent := false
  merged := false
  files := []
  assigned := []
  lastRequestedMs := none
  lastRequestedTSec := none
  sessionId := sid

/-- The destination file of the capture attempt that would be (or was just)
created at this state: its index is this.recordings.length (line 287). -/
def currentSegFile (s : RecState) : String :=
  segFileName s.sessionId s.recordings.length

/-- startStreamMonitoring (lines 137-170): returns at once if already
monitoring; otherwise sets the flag, arms the 2-second quick-check interval,
and calls startContinuousMonitoring, whose guard (line 174) spawns the
ffprobe loop only when monitoring and not recording. -/
def startStreamMonitoring (s : RecState) : RecState :=
  if s.isMonitoring then s
  else { s with isMonitoring := true, quickCheckActive := true,
                deepProbeActive := !s.isRecording }

/-- stopStreamMonitoring (lines 221-228): clears the monitoring flag and the
quick-check interval. -/
def stopStreamMonitoring (s : RecState) : RecState :=
  { s with isMonitoring := false, quickCheckActive := false }

/-- The asynchronous callbacks of the recorder, each with the external
observations it reacts to. captureClose carries the subprocess exit code
(none when killed by a signal), whether the subprocess wrote the destination
file, and the wall-clock ms from spawn to exit. -/
inductive Ev where
  | startSession (durationMinutes : Nat)
  | startCapture
  | captureClose (code : Option Int) (fileWritten : Bool) (elapsedMs : Nat)
  | captureSpawnError
  | stopReq
  | completionTick
  | deepRearm
deriving DecidableEq, Repr

/-- One callback step of the recorder.
startSession: the field resets at the top of startRecording (lines 231-234).
startCapture: recordSegment up to the spawn (lines 280-329): returns when the
target is already reached, otherwise assigns index = recordings.length,
computes remainingMs = total - recorded and spawns ffmpeg whose -t flag is
Math.ceil(remainingMs / 1000) seconds, recorded here in lastRequestedTSec.
captureClose: the close handler (lines 368-410): success iff exit code 0 and
the destination file exists; then the segment is pushed and the wall-clock
duration accumulated; otherwise the file is unlinked if present,
isStreamAvailable is cleared and stream monitoring starts.
captureSpawnError: the error handler (lines 412-420).
stopReq: stop() (lines 489-496).
completionTick: one round of checkCompletion (lines 254-266): when
recorded >= total and not recording, stops monitoring and fires the merge.
deepRearm: the setTimeout at lines 204-208: re-arms the continuous ffprobe
loop only while monitoring and not recording. -/
def step (s : RecState) : Ev → RecState
  | .startSession m =>
      { s with totalDurationMs := m * 60 * 1000, recordedDurationMs := 0,
               recordings := [], assigned := [], lastRequestedMs := none,
               lastRequestedTSec := none }
  | .startCapture =>
      if s.totalDurationMs ≤ s.recordedDurationMs then s
      else
        let remaining := s.totalDurationMs - s.recordedDurationMs
        { s with isRecording := true, currentProcessLive := true,
                 assigned := s.assigned ++ [s.recordings.length],
                 lastRequestedMs := some remaining,
                 lastRequestedTSec := some ((remaining + 999) / 1000) }
  | .captureClose code fileWritten elapsedMs =>
      let idx := s.recordings.length
      let file := segFileName s.sessionId idx
      let files1 := if fileWritten then file :: s.files else s.files
      let s1 : RecState :=
        { s with isRecording := false, currentProcessLive := false,
                 files := files1 }
      if code = some 0 ∧ file ∈ files1 then
        { s1 with
            recordings := s1.recordings ++ [⟨file, elapsedMs, idx⟩],
            recordedDurationMs := s1.recordedDurationMs + elapsedMs }
      else
        startStreamMonitoring
          { s1 with files := files1.filter (fun n => n != file),
                    isStreamAvailable := false }
  | .captureSpawnError =>
      startStreamMonitoring
        { s with isRecording := false, currentProcessLive := false,
                 isStreamAvailable := false }
  | .stopReq =>
      let s1 := stopStreamMonitoring s
      if s1.currentProcessLive then
        { s1 with sigTermSent := true, isRecording := false }
      else s1
  | .completionTick =>
      if s.totalDurationMs ≤ s.recordedDurationMs ∧ s.isRecording = false then
        { stopStreamMonitoring s with merged := true }
      else s
  | .deepRearm =>
      if s.isMonitoring = true ∧ s.isRecording = false then
        { s with deepProbeActive := true }
      else { s with deepProbeActive := false }

/-- The recorder after a sequence of callbacks, from the constructor state. -/
def run (sid : Nat) (evs : List Ev) : RecState :=
  evs.foldl step (initState sid)

/-- The condition under which checkCompletion (lines 255-258) fires
mergeRecordings: recordedDurationMs >= totalDurationMs and not recording. -/
def checkCompletionCond (s : RecState) : Prop :=
  s.totalDurationMs ≤ s.recordedDurationMs ∧ s.isRecording = false

/-! ## Filesystem model and mergeRecordings -/

/-- A flat directory: file name to file content.  Content is an opaque byte
string; two files are byte-identical when their contents are equal. -/
abbrev Fs := List (String × String)

/-- existsSync / readFileSync, as a lookup of the first matching entry. -/
def fsLookup (fs : Fs) (name : String) : Option String :=
  (fs.find? (fun e => e.1 == name)).map Prod.snd

/-- existsSync. -/
def fsExists (fs : Fs) (name : String) : Bool :=
  (fsLookup fs name).isSome

/-- unlinkSync (no-op if the name is absent, matching the existsSync guards
around every unlink in the source). -/
def fsUnlink (fs : Fs) (name : String) : Fs :=
  fs.filter (fun e => e.1 != name)

/-- writeFileSync: replaces any previous content under the name. -/
def fsWrite (fs : Fs) (name content : String) : Fs :=
  (name, content) :: fsUnlink fs name

/-- path.join of the output directory and a file name. -/
def pathJoin (dir name : String) : String := dir ++ "/" ++ name

/-- Insertion into a list sorted by ascending Segment.index. -/
def insertByIndex (r : Segment) : List Segment → List Segment
  | [] => [r]
  | x :: xs =>
      if r.index ≤ x.index then r :: x :: xs else x :: insertByIndex r xs

/-- this.recordings.sort((a, b) => a.index - b.index) (line 443): the
recordings in ascending index order. -/
def sortByIndex (l : List Segment) : List Segment :=
  l.foldr insertByIndex []

/-- The concat manifest content (lines 442-445): one line per segment, in
ascending index order.  Quoting of each resolved path is elided: claims never
inspect the manifest text, only when and whether it is written and deleted. -/
def manifestOf (recordings : List Segment) : String :=
  String.intercalate "\n"
    ((sortByIndex recordings).map (fun r => "file " ++ r.file))

/-- Outcomes of mergeRecordings: the empty-list throw (line 426), a throw of
renameSync when the single segment file is missing, and the rejection
"Merge failed with code ..." (line 481). -/
inductive MergeError where
  | emptyInput
  | renameFailed
  | mergeFailed (code : Int)
deriving DecidableEq, Repr

/-- Result of one mergeRecordings call: the settled promise, the filesystem
afterwards, and whether the external concat subprocess was spawned. -/
structure MergeOutcome where
  result : Except MergeError String
  fs : Fs
  spawnedConcat : Bool
deriving Repr

/-- mergeRecordings (src/index.js lines 424-487).  The external ffmpeg concat
subprocess is opaque: mergeExit is its exit code, concatOut the bytes it
produced at finalPath when it succeeded.  Faithful to the source order: on an
empty list it throws before touching the filesystem; for one segment it
renames the file to finalPath and never spawns; for two or more it writes the
manifest, spawns the concat process, and in the close handler first unlinks
the manifest, then unlinks every source segment file, and only then inspects
the exit code to resolve or reject. -/
def mergeRecordings (outputDir sessionId finalOutputName : String)
    (recordings : List Segment) (fs : Fs) (mergeExit : Int)
    (concatOut : String) : MergeOutcome :=
  match recordings with
  | [] => ⟨.error .emptyInput, fs, false⟩
  | [r] =>
      let finalPath := pathJoin outputDir finalOutputName
      match fsLookup fs r.file with
      | some c => ⟨.ok finalPath, fsWrite (fsUnlink fs r.file) finalPath c, false⟩
      | none => ⟨.error .renameFailed, fs, false⟩
  | r1 :: r2 :: rest =>
      let recs := r1 :: r2 :: rest
      let finalPath := pathJoin outputDir finalOutputName
      let concatFile := pathJoin outputDir ("concat_" ++ sessionId ++ ".txt")
      let fs1 := fsWrite fs concatFile (manifestOf recs)
      let fs2 := if mergeExit = 0 then fsWrite fs1 finalPath concatOut else fs1
      let fs3 := fsUnlink fs2 concatFile
      let fs4 := (sortByIndex recs).foldl (fun acc r => fsUnlink acc r.file) fs3
      if mergeExit = 0 then ⟨.ok finalPath, fs4, true⟩
      else ⟨.error (.mergeFailed mergeExit), fs4, true⟩

/-! ## The part_000 variant -/

/-- How the exit handler of src/unnamed/part_000 settles the recordSegment
promise. -/
inductive P0Outcome where
  | rejected
  | resolved (durationSec : Nat) (filename : String)
deriving DecidableEq, Repr

/-- The ffmpeg exit handler of src/unnamed/part_000 (lines 37-46): computes
duration = floor(elapsedMs / 1000) and rejects whenever duration < 5,
otherwise resolves with the duration and filename.  The exit code parameter
is received but never consulted. -/
def part000ExitHandler (_code : Option Int) (elapsedMs : Nat)
    (filename : String) : P0Outcome :=
  let duration := elapsedMs / 1000
  if duration < 5 then .rejected else .resolved duration filename

/-! ## The shallow availability probe -/

/-- The first event that settles the checkStreamAvailability promise: an HTTP
response with its status code, a request error, the request-level timeout, or
the outer 3-second setTimeout. -/
inductive ProbeEvent where
  | response (statusCode : Nat)
  | connError
  | reqTimeout
  | overallTimeout
deriving DecidableEq, Repr

/-- checkStreamAvailability (src/index.js lines 97-134): the promise only
ever resolves (never rejects); it resolves statusCode == 200 || 206 on a
response and false on every error or timeout path. -/
def checkStreamAvailability : ProbeEvent → Bool
  | .response c => c == 200 || c == 206
  | .connError => false
  | .reqTimeout => false
  | .overallTimeout => false

/-! ## JavaScript number semantics for getStatus -/

/-- The values a JavaScript number expression can take here: NaN, the two
infinities, or a finite rational. -/
inductive JsNum where
  | nan
  | inf
  | ninf
  | num (q : ℚ)
deriving DecidableEq, Repr

/-- JavaScript division (IEEE-754): 0/0 is NaN, x/0 for finite nonzero x is a
signed infinity, NaN propagates. -/
def jsDiv : JsNum → JsNum → JsNum
  | .nan, _ => .nan
  | _, .nan => .nan
  | .num a, .num b =>
      if b = 0 then (if a = 0 then .nan else if 0 < a then .inf else .ninf)
      else .num (a / b)
  | .inf, .num b => if 0 ≤ b then .inf else .ninf
  | .ninf, .num b => if 0 ≤ b then .ninf else .inf
  | .num _, .inf => .num 0
  | .num _, .ninf => .num 0
  | .inf, .inf => .nan
  | .inf, .ninf => .nan
  | .ninf, .inf => .nan
  | .ninf, .ninf => .nan

/-- JavaScript multiplication: NaN propagates, infinity times zero is NaN. -/
def jsMul : JsNum → JsNum → JsNum
  | .nan, _ => .nan
  | _, .nan => .nan
  | .num a, .num b => .num (a * b)
  | .inf, .num b => if b = 0 then .nan else if 0 < b then .inf else .ninf
  | .num a, .inf => if a = 0 then .nan else if 0 < a then .inf else .ninf
  | .ninf, .num b => if b = 0 then .nan else if 0 < b then .ninf else .inf
  | .num a, .ninf => if a = 0 then .nan else if 0 < a then .ninf else .inf
  | .inf, .inf => .inf
  | .inf, .ninf => .ninf
  | .ninf, .inf => .ninf
  | .ninf, .ninf => .inf

/-- Math.floor: NaN and the infinities pass through, finite values floor. -/
def jsFloor : JsNum → JsNum
  | .nan => .nan
  | .inf => .inf
  | .ninf => .ninf
  | .num q => .num (⌊q⌋ : ℤ)

/-- The object returned by getStatus. -/
structure StatusSnapshot where
  isRecording : Bool
  isMonitoring : Bool
  isStreamAvailable : Bool
  recordedDuration : Nat
  totalDuration : Nat
  progress : JsNum
  segmentsRecorded : Nat
  consecutiveFailures : Nat
deriving DecidableEq, Repr

/-- getStatus (src/index.js lines 498-511).  progress is
Math.floor((recordedDurationMs / totalDurationMs) * 100) with no guard on
totalDurationMs = 0, evaluated under JavaScript number semantics. -/
def getStatus (s : RecState) : StatusSnapshot where
  isRecording := s.isRecording
  isMonitoring := s.isMonitoring
  isStreamAvailable := s.isStreamAvailable
  recordedDuration := s.recordedDurationMs / 1000
  totalDuration := s.totalDurationMs / 1000
  progress :=
    jsFloor (jsMul (jsDiv (.num s.recordedDurationMs) (.num s.totalDurationMs))
      (.num 100))
  segmentsRecorded := s.recordings.length
  consecutiveFailures := s.consecutiveFailures

/-! ## Concrete fixtures for counterexamples and witnesses -/

/-- A first retained segment on disk. -/
def segA : Segment := ⟨"rec/segment_7_0.mp4", 60000, 0⟩

/-- A second retained segment on disk. -/
def segB : Segment := ⟨"rec/segment_7_1.mp4", 60000, 1⟩

/-- A disk holding exactly the two segment files. -/
def fsAB : Fs :=
  [("rec/segment_7_0.mp4", "bytesA"), ("rec/segment_7_1.mp4", "bytesB")]

/-- A capture that exits 1 second after spawn with exit code 0 and a written
destination file. -/
def fastExitTrace : List Ev :=
  [.startSession 2, .startCapture, .captureClose (some 0) true 1000]

/-- A failed first attempt followed by a second attempt: both capture
creations read this.recordings.length = 0. -/
def reusedIndexTrace : List Ev :=
  [.startSession 2, .startCapture, .captureClose (some 1) false 1000,
   .startCapture]

/-- stop() during a live capture, followed by the close event of the killed
subprocess. -/
def stopThenCloseTrace : List Ev :=
  [.startSession 2, .startCapture, .stopReq, .captureClose none false 1500]

/-! ## Bookkeeping invariants of the recorder -/

/-- The bookkeeping invariant: the accumulated counter equals the sum of the
retained segment durations, the retained segments carry indices 0,1,2,... in
order, and the indices handed out at capture creation form a non-decreasing
sequence bounded by the current retained count. -/
def GoodState (s : RecState) : Prop :=
  s.recordedDurationMs = sumDur s.recordings ∧
  s.recordings.map Segment.index = List.range s.recordings.length ∧
  List.Chain' (· ≤ ·) s.assigned ∧
  ∀ i ∈ s.assigned, i ≤ s.recordings.length

lemma goodState_initState (sid : Nat) : GoodState (initState sid) := by
  refine ⟨rfl, rfl, ?_, ?_⟩ <;> simp [initState]

lemma goodState_startStreamMonitoring (s : RecState) (h : GoodState s) :
    GoodState (startStreamMonitoring s) := by
  unfold startStreamMonitoring
  split
  · exact h
  · exact h

lemma goodState_step (s : RecState) (e : Ev) (h : GoodState s) :
    GoodState (step s e) := by
  obtain ⟨h1, h2, h3, h4⟩ := h
  cases e with
  | startSession m =>
      simp only [step]
      refine ⟨rfl, rfl, ?_, ?_⟩ <;> simp
  | startCapture =>
      simp only [step]
      split
      · exact ⟨h1, h2, h3, h4⟩
      · refine ⟨h1, h2, ?_, ?_⟩
        · refine List.Chain'.append h3 (List.chain'_singleton _) ?_
          intro x hx y hy
          have hx' : x ∈ s.assigned := by
            obtain ⟨hne, hxe⟩ := List.mem_getLast?_eq_getLast hx
            exact hxe ▸ List.getLast_mem hne
          have hy' : s.recordings.length = y := by simpa using hy
          subst hy'
          exact h4 x hx'
        · intro i hi
          rcases List.mem_append.1 hi with hi | hi
          · exact h4 i hi
          · simp at hi
            exact le_of_eq hi
  | captureClose code fw el =>
      have success : ∀ d el' : Nat,
          GoodState
            { s with
              recordings :=
                s.recordings ++
                  [⟨segFileName s.sessionId s.recordings.length, el',
                    s.recordings.length⟩],
              recordedDurationMs := s.recordedDurationMs + el',
              isRecording := false, currentProcessLive := false,
              files := segFileName s.sessionId s.recordings.length :: s.files } := by
        intro d el'
        refine ⟨?_, ?_, h3, ?_⟩
        · simp [sumDur, h1]
        · simp [h2, List.range_succ]
        · intro i hi
          have := h4 i hi
          simp
          omega
      cases fw with
      | false =>
          simp only [step, Bool.false_eq_true, if_false]
          split
          · exact success 0 el
          · exact goodState_startStreamMonitoring _ ⟨h1, h2, h3, h4⟩
      | true =>
          simp only [step, if_true]
          split
          · exact success 0 el
          · exact goodState_startStreamMonitoring _ ⟨h1, h2, h3, h4⟩
  | captureSpawnError =>
      exact goodState_startStreamMonitoring _ ⟨h1, h2, h3, h4⟩
  | stopReq =>
      simp only [step]
      split
      · exact ⟨h1, h2, h3, h4⟩
      · exact ⟨h1, h2, h3, h4⟩
  | completionTick =>
      simp only [step]
      split
      · exact ⟨h1, h2, h3, h4⟩
      · exact ⟨h1, h2, h3, h4⟩
  | deepRearm =>
      simp only [step]
      split
      · exact ⟨h1, h2, h3, h4⟩
      · exact ⟨h1, h2, h3, h4⟩

lemma goodState_foldl (evs : List Ev) :
    ∀ s : RecState, GoodState s → GoodState (evs.foldl step s) := by
  induction evs with
  | nil => exact fun s h => h
  | cons e t ih => exact fun s h => ih _ (goodState_step s e h)

lemma goodState_run (sid : Nat) (evs : List Ev) : GoodState (run sid evs) :=
  goodState_foldl evs _ (goodState_initState sid)

/-! ## Filesystem lemmas -/

lemma fsLookup_eq_none_iff (fs : Fs) (name : String) :
    fsLookup fs name = none ↔ ∀ e ∈ fs, e.1 ≠ name := by
  unfold fsLookup
  rw [Option.map_eq_none', List.find?_eq_none]
  constructor
  · intro h e he
    simpa using h e he
  · intro h e he
    simpa using h e he

lemma fsLookup_fsUnlink_self (fs : Fs) (name : String) :
    fsLookup (fsUnlink fs name) name = none := by
  rw [fsLookup_eq_none_iff]
  intro e he
  have := (List.mem_filter.1 he).2
  simpa using this

lemma fsLookup_fsUnlink_of_none (fs : Fs) (m name : String)
    (h : fsLookup fs name = none) : fsLookup (fsUnlink fs m) name = none := by
  rw [fsLookup_eq_none_iff] at h ⊢
  intro e he
  exact h e (List.mem_filter.1 he).1

lemma fsLookup_foldl_fsUnlink_of_none (l : List Segment) (fs : Fs)
    (name : String) (h : fsLookup fs name = none) :
    fsLookup (l.foldl (fun acc r => fsUnlink acc r.file) fs) name = none := by
  induction l generalizing fs with
  | nil => exact h
  | cons r t ih => exact ih _ (fsLookup_fsUnlink_of_none _ _ _ h)

lemma fsLookup_foldl_fsUnlink_mem (l : List Segment) (fs : Fs) (r : Segment)
    (hr : r ∈ l) :
    fsLookup (l.foldl (fun acc x => fsUnlink acc x.file) fs) r.file = none := by
  induction l generalizing fs with
  | nil => cases hr
  | cons a t ih =>
      rcases List.mem_cons.1 hr with hr | hr
      · subst hr
        exact fsLookup_foldl_fsUnlink_of_none t _ _
          (fsLookup_fsUnlink_self fs r.file)
      · exact ih (fsUnlink fs a.file) hr

lemma fsExists_eq_false_of_lookup_none (fs : Fs) (name : String)
    (h : fsLookup fs name = none) : fsExists fs name = false := by
  unfold fsExists
  rw [h]
  rfl

lemma fsLookup_fsWrite_self (fs : Fs) (name c : String) :
    fsLookup (fsWrite fs name c) name = some c := by
  simp [fsLookup, fsWrite, List.find?_cons]

lemma mem_insertByIndex (r a : Segment) (l : List Segment) :
    a ∈ insertByIndex r l ↔ a = r ∨ a ∈ l := by
  induction l with
  | nil => simp [insertByIndex]
  | cons x xs ih =>
      unfold insertByIndex
      split
      · simp [List.mem_cons]
      · simp only [List.mem_cons, ih]
        tauto

lemma mem_sortByIndex (l : List Segment) (a : Segment) :
    a ∈ sortByIndex l ↔ a ∈ l := by
  unfold sortByIndex
  induction l with
  | nil => simp
  | cons x xs ih => simp [mem_insertByIndex, ih]

lemma startStreamMonitoring_fields (s : RecState) :
    (startStreamMonitoring s).recordings = s.recordings ∧
    (startStreamMonitoring s).recordedDurationMs = s.recordedDurationMs ∧
    (startStreamMonitoring s).files = s.files ∧
    (startStreamMonitoring s).isMonitoring = true := by
  unfold startStreamMonitoring
  split
  · next h => exact ⟨rfl, rfl, rfl, h⟩
  · exact ⟨rfl, rfl, rfl, rfl⟩

/-! ## Claim C7: merge of an empty list -/

/-- Claim C7: mergeRecordings applied to an empty segment list fails with the
distinct EmptyInput error ("No recordings to merge") and performs no
filesystem writes: the disk is returned unchanged and the concat subprocess
is never spawned. -/
theorem c7_empty_merge_fails_without_writes
    (outputDir sessionId finalOutputName : String) (fs : Fs)
    (mergeExit : Int) (concatOut : String) :
    (mergeRecordings outputDir sessionId finalOutputName [] fs mergeExit
        concatOut).result = .error .emptyInput ∧
    (mergeRecordings outputDir sessionId finalOutputName [] fs mergeExit
        concatOut).fs = fs ∧
    (mergeRecordings outputDir sessionId finalOutputName [] fs mergeExit
        concatOut).spawnedConcat = false :=
  ⟨rfl, rfl, rfl⟩

/-! ## Claim C8: merge of a single segment -/

/-- Claim C8: mergeRecordings applied to exactly one segment renames that
file to the final path without spawning the concat subprocess, and the final
path afterwards holds exactly the bytes of the sole input. -/
theorem c8_single_segment_merge_is_rename
    (outputDir sessionId finalOutputName : String) (r : Segment) (fs : Fs)
    (mergeExit : Int) (concatOut c : String)
    (h : fsLookup fs r.file = some c) :
    (mergeRecordings outputDir sessionId finalOutputName [r] fs mergeExit
        concatOut).result = .ok (pathJoin outputDir finalOutputName) ∧
    (mergeRecordings outputDir sessionId finalOutputName [r] fs mergeExit
        concatOut).spawnedConcat = false ∧
    fsLookup (mergeRecordings outputDir sessionId finalOutputName [r] fs
        mergeExit concatOut).fs (pathJoin outputDir finalOutputName)
      = some c := by
  simp only [mergeRecordings]
  rw [h]
  exact ⟨rfl, rfl, fsLookup_fsWrite_self _ _ _⟩

/-- Claim C8, witness: the open theorem applied to one concrete segment whose
file is on disk. -/
theorem c8_witness :
    fsLookup [("rec/solo.mp4", "soloBytes")] "rec/solo.mp4"
        = some "soloBytes" ∧
    (mergeRecordings "rec" "7" "final.mp4" [⟨"rec/solo.mp4", 60000, 0⟩]
        [("rec/solo.mp4", "soloBytes")] 0 "").result = .ok "rec/final.mp4" ∧
    (mergeRecordings "rec" "7" "final.mp4" [⟨"rec/solo.mp4", 60000, 0⟩]
        [("rec/solo.mp4", "soloBytes")] 0 "").spawnedConcat = false ∧
    fsLookup (mergeRecordings "rec" "7" "final.mp4" [⟨"rec/solo.mp4", 60000, 0⟩]
        [("rec/solo.mp4", "soloBytes")] 0 "").fs "rec/final.mp4"
      = some "soloBytes" := by
  have h := c8_single_segment_merge_is_rename "rec" "7" "final.mp4"
    ⟨"rec/solo.mp4", 60000, 0⟩ [("rec/solo.mp4", "soloBytes")] 0 ""
    "soloBytes" rfl
  exact ⟨rfl, h.1, h.2.1, h.2.2⟩

/-! ## Claim C1: merge failure and the input segment files -/

/-- Claim C1, counterexample: with two segments on disk and the concat
subprocess exiting with code 1, mergeRecordings rejects, yet neither input
segment file exists on disk afterward — refuting the claim that every input
segment file survives a merge failure. -/
theorem c1_counterexample :
    (mergeRecordings "rec" "7" "final.mp4" [segA, segB] fsAB 1 "").result
        = .error (.mergeFailed 1) ∧
    fsExists (mergeRecordings "rec" "7" "final.mp4" [segA, segB] fsAB 1 "").fs
        segA.file = false ∧
    fsExists (mergeRecordings "rec" "7" "final.mp4" [segA, segB] fsAB 1 "").fs
        segB.file = false :=
  ⟨rfl, rfl, rfl⟩

/-- Claim C1 (amended): for every merge of two or more segments whose concat
subprocess exits with a non-zero code, mergeRecordings rejects with the
merge-failed error, but — contrary to the original claim — the close handler
has already unlinked every input segment file before inspecting the exit
code, so no input segment file exists on disk afterward. -/
theorem c1_merge_failure_rejects_but_deletes_inputs
    (outputDir sessionId finalOutputName : String) (r1 r2 : Segment)
    (rest : List Segment) (fs : Fs) (code : Int) (concatOut : String)
    (hcode : code ≠ 0) :
    (mergeRecordings outputDir sessionId finalOutputName (r1 :: r2 :: rest)
        fs code concatOut).result = .error (.mergeFailed code) ∧
    ∀ r ∈ r1 :: r2 :: rest,
      fsExists (mergeRecordings outputDir sessionId finalOutputName
          (r1 :: r2 :: rest) fs code concatOut).fs r.file = false := by
  constructor
  · simp only [mergeRecordings, if_neg hcode]
  · intro r hr
    simp only [mergeRecordings, if_neg hcode]
    exact fsExists_eq_false_of_lookup_none _ _
      (fsLookup_foldl_fsUnlink_mem _ _ _ ((mem_sortByIndex _ _).2 hr))

/-- Claim C1, witness: the amended theorem applied to a concrete failing
merge of two segments. -/
theorem c1_witness :
    (1 : Int) ≠ 0 ∧
    (mergeRecordings "rec" "7" "final.mp4" [segA, segB] fsAB 1 "").result
        = .error (.mergeFailed 1) ∧
    fsExists (mergeRecordings "rec" "7" "final.mp4" [segA, segB] fsAB 1 "").fs
        segB.file = false := by
  have h := c1_merge_failure_rejects_but_deletes_inputs "rec" "7" "final.mp4"
    segA segB [] fsAB 1 "" (by decide)
  exact ⟨by decide, h.1, h.2 segB (by simp)⟩

/-! ## Claim C2: the minimum-viable duration threshold -/

/-- Claim C2, counterexample: in the ResilientStreamRecorder, a capture
subprocess that exits 1 second after spawn with exit code 0 and a written
destination file is classified a success and appended to the segment list —
refuting the claim that an exit within 4 seconds is always classified
Failure and never appended. -/
theorem c2_counterexample :
    (run 7 fastExitTrace).recordings.length = 1 ∧
    (run 7 fastExitTrace).recordedDurationMs = 1000 :=
  ⟨rfl, rfl⟩

/-- Claim C2 (amended): only the src/unnamed/part_000 variant enforces the
minimum-viable threshold — its exit handler rejects every exit whose elapsed
time is under 5 seconds regardless of the reported exit code; the
ResilientStreamRecorder close handler in src/index.js applies no threshold
at all: an exit with code 0 and a written destination file is appended to
the segment list whatever the elapsed time. -/
theorem c2_threshold_only_in_part000_variant
    (code : Option Int) (elapsedMs : Nat) (filename : String) (s : RecState)
    (h : elapsedMs < 5000) :
    part000ExitHandler code elapsedMs filename = .rejected ∧
    (step s (.captureClose (some 0) true elapsedMs)).recordings.length
      = s.recordings.length + 1 := by
  constructor
  · unfold part000ExitHandler
    have hq : elapsedMs / 1000 < 5 := by omega
    simp [hq]
  · simp [step]

/-- Claim C2, witness: the amended theorem at a 1-second exit. -/
theorem c2_witness :
    (1000 : Nat) < 5000 ∧
    part000ExitHandler (some 0) 1000 "segment_x.mp4" = .rejected ∧
    (step (initState 7) (.captureClose (some 0) true 1000)).recordings.length
      = (initState 7).recordings.length + 1 := by
  have h := c2_threshold_only_in_part000_variant (some 0) 1000
    "segment_x.mp4" (initState 7) (by decide)
  exact ⟨by decide, h.1, h.2⟩

/-! ## Claim C3: sequence indices assigned at capture creation -/

/-- Claim C3, counterexample: a failed attempt followed by a second attempt —
both capture creations are assigned index 0, because the index is
this.recordings.length and a failed attempt leaves the list unchanged; so
the indices assigned at creation are not strictly increasing and repeat. -/
theorem c3_counterexample :
    (run 7 reusedIndexTrace).assigned = [0, 0] ∧
    ¬ List.Chain' (· < ·) (run 7 reusedIndexTrace).assigned := by
  refine ⟨rfl, ?_⟩
  intro hchain
  rw [show (run 7 reusedIndexTrace).assigned = [0, 0] from rfl] at hchain
  simp [List.chain'_cons] at hchain

/-- Claim C3 (amended): within one session the index assigned at capture
creation equals the number of retained segments at that moment, so across
any interleaving of successes and failures the assigned indices are merely
non-decreasing (a failed attempt's index is reused by the next attempt),
while the retained segments themselves carry the strictly increasing indices
0, 1, 2, ... . -/
theorem c3_indices_nondecreasing_retained_strict (sid : Nat) (evs : List Ev) :
    (run sid evs).recordings.map Segment.index
        = List.range (run sid evs).recordings.length ∧
    List.Chain' (· ≤ ·) (run sid evs).assigned :=
  ⟨(goodState_run sid evs).2.1, (goodState_run sid evs).2.2.1⟩

/-! ## Claim C4: effect of a failed capture attempt -/

/-- Claim C4: for every capture attempt that resolves to Failure — a close
event whose exit code is not 0 or whose destination file is missing, or a
spawn error — the segment list and the accumulated recorded duration are
unchanged, the destination file does not exist once the attempt resolves,
and stream monitoring is started.  The hypothesis that the destination file
is not on disk before the attempt reflects that the capture subprocess is
the only writer of that path (the spawn-error handler runs no unlink, but a
subprocess that failed to spawn wrote nothing). -/
theorem c4_failure_discards_attempt_deletes_file_starts_monitoring
    (s : RecState) (code : Option Int) (fw : Bool) (elapsedMs : Nat)
    (hfail : ¬(code = some 0 ∧ fw = true))
    (hnew : currentSegFile s ∉ s.files) :
    ((step s (.captureClose code fw elapsedMs)).recordings = s.recordings ∧
     (step s (.captureClose code fw elapsedMs)).recordedDurationMs
        = s.recordedDurationMs ∧
     currentSegFile s ∉ (step s (.captureClose code fw elapsedMs)).files ∧
     (step s (.captureClose code fw elapsedMs)).isMonitoring = true) ∧
    ((step s .captureSpawnError).recordings = s.recordings ∧
     (step s .captureSpawnError).recordedDurationMs = s.recordedDurationMs ∧
     currentSegFile s ∉ (step s .captureSpawnError).files ∧
     (step s .captureSpawnError).isMonitoring = true) := by
  have hfilter : ∀ fs' : List String,
      currentSegFile s ∉ fs'.filter (fun n => n != currentSegFile s) := by
    intro fs' hmem
    have := (List.mem_filter.1 hmem).2
    simp at this
  constructor
  · cases fw with
    | false =>
        have hcond : ¬(code = some 0 ∧
            segFileName s.sessionId s.recordings.length ∈ s.files) :=
          fun hc => hnew hc.2
        simp only [step, if_neg Bool.false_ne_true]
        rw [if_neg hcond]
        refine ⟨?_, ?_, ?_, (startStreamMonitoring_fields _).2.2.2⟩
        · rw [(startStreamMonitoring_fields _).1]
        · rw [(startStreamMonitoring_fields _).2.1]
        · rw [(startStreamMonitoring_fields _).2.2.1]
          exact hfilter _
    | true =>
        have hne : code ≠ some 0 := fun hc => hfail ⟨hc, rfl⟩
        have hcond : ¬(code = some 0 ∧
            segFileName s.sessionId s.recordings.length
              ∈ segFileName s.sessionId s.recordings.length :: s.files) :=
          fun hc => hne hc.1
        simp only [step, eq_self_iff_true, if_true]
        rw [if_neg hcond]
        refine ⟨?_, ?_, ?_, (startStreamMonitoring_fields _).2.2.2⟩
        · rw [(startStreamMonitoring_fields _).1]
        · rw [(startStreamMonitoring_fields _).2.1]
        · rw [(startStreamMonitoring_fields _).2.2.1]
          exact hfilter _
  · refine ⟨(startStreamMonitoring_fields _).1,
      (startStreamMonitoring_fields _).2.1, ?_,
      (startStreamMonitoring_fields _).2.2.2⟩
    rw [show (step s .captureSpawnError).files = s.files from
      (startStreamMonitoring_fields _).2.2.1]
    exact hnew

/-- Claim C4, witness: the theorem at the fresh recorder, a close event with
exit code 1 and no written file, and the spawn-error event. -/
theorem c4_witness :
    ¬((some 1 : Option Int) = some 0 ∧ true = true) ∧
    currentSegFile (initState 7) ∉ (initState 7).files ∧
    (step (initState 7) (.captureClose (some 1) true 2000)).recordings
        = (initState 7).recordings ∧
    (step (initState 7) (.captureClose (some 1) true 2000)).isMonitoring
        = true ∧
    (step (initState 7) .captureSpawnError).isMonitoring = true := by
  have h := c4_failure_discards_attempt_deletes_file_starts_monitoring
    (initState 7) (some 1) true 2000 (by decide) (by decide)
  exact ⟨by decide, by decide, h.1.1, h.1.2.2.2, h.2.2.2.2⟩

/-! ## Claim C5: duration capping and the merge guard -/

/-- Claim C5: at any reachable recorder state, a capture started while the
accumulated duration is below the target requests exactly target minus
accumulated milliseconds (the -t argument of the spawn being its ceiling in
whole seconds); once the accumulated duration reaches the target,
recordSegment starts nothing (the state is unchanged); and whenever the
checkCompletion condition that triggers the merge holds, the sum of the
retained segment durations is at least the target. -/
theorem c5_capping_and_merge_guard (sid : Nat) (evs : List Ev) :
    ((run sid evs).recordedDurationMs < (run sid evs).totalDurationMs →
       (step (run sid evs) .startCapture).lastRequestedMs
         = some ((run sid evs).totalDurationMs
             - (run sid evs).recordedDurationMs) ∧
       (step (run sid evs) .startCapture).lastRequestedTSec
         = some (((run sid evs).totalDurationMs
             - (run sid evs).recordedDurationMs + 999) / 1000)) ∧
    ((run sid evs).totalDurationMs ≤ (run sid evs).recordedDurationMs →
       step (run sid evs) .startCapture = run sid evs) ∧
    (checkCompletionCond (run sid evs) →
       (run sid evs).totalDurationMs ≤ sumDur (run sid evs).recordings) := by
  refine ⟨?_, ?_, ?_⟩
  · intro h
    simp only [step]
    rw [if_neg (by omega)]
    exact ⟨rfl, rfl⟩
  · intro h
    simp only [step]
    rw [if_pos h]
  · rintro ⟨hge, -⟩
    have h1 := (goodState_run sid evs).1
    omega

/-- Claim C5, witness: the theorem applied to a 2-minute session before any
capture (remaining = 120000 ms), and to a 0-minute session where the target
is already met, where no capture starts and the merge guard holds. -/
theorem c5_witness :
    (step (run 7 [.startSession 2]) .startCapture).lastRequestedMs
        = some 120000 ∧
    (step (run 7 [.startSession 2]) .startCapture).lastRequestedTSec
        = some 120 ∧
    step (run 7 [.startSession 0]) .startCapture = run 7 [.startSession 0] ∧
    (run 7 [.startSession 0]).totalDurationMs
        ≤ sumDur (run 7 [.startSession 0]).recordings := by
  refine ⟨?_, ?_, ?_, ?_⟩
  · exact ((c5_capping_and_merge_guard 7 [.startSession 2]).1 (by decide)).1
  · exact ((c5_capping_and_merge_guard 7 [.startSession 2]).1 (by decide)).2
  · exact (c5_capping_and_merge_guard 7 [.startSession 0]).2.1 (by decide)
  · exact (c5_capping_and_merge_guard 7 [.startSession 0]).2.2
      ⟨by decide, by decide⟩

/-! ## Claim C6: the effect of stop() -/

/-- Claim C6, counterexample: stop() during a live capture clears both
loops, but the close event of the killed subprocess then takes the failure
branch and calls startStreamMonitoring, so monitoring and the quick-check
interval are running again afterward — refuting the claim that the polling
loops stay stopped after stop(). -/
theorem c6_counterexample :
    (run 7 stopThenCloseTrace).isMonitoring = true ∧
    (run 7 stopThenCloseTrace).quickCheckActive = true :=
  ⟨rfl, rfl⟩

/-- Claim C6 (amended): stop() itself sends SIGTERM to the live capture
subprocess, stops both polling loops (the quick-check interval is cleared
and the deep probe's re-arm guard sees isMonitoring = false, so it does not
re-arm), and never itself triggers a merge; the loops however do not
necessarily stay stopped, because the killed subprocess's subsequent close
event restarts stream monitoring. -/
theorem c6_stop_signals_and_stops_loops (s : RecState)
    (h : s.currentProcessLive = true) :
    (step s .stopReq).sigTermSent = true ∧
    (step s .stopReq).isMonitoring = false ∧
    (step s .stopReq).quickCheckActive = false ∧
    (step s .stopReq).merged = s.merged ∧
    (step (step s .stopReq) .deepRearm).deepProbeActive = false := by
  have hc : (stopStreamMonitoring s).currentProcessLive = true := h
  simp only [step]
  rw [if_pos hc]
  refine ⟨rfl, rfl, rfl, rfl, ?_⟩
  rw [if_neg (fun hh => Bool.false_ne_true hh.1)]

/-- Claim C6, witness: the amended theorem at the state reached after
starting a 2-minute session and spawning the first capture. -/
theorem c6_witness :
    (run 7 [.startSession 2, .startCapture]).currentProcessLive = true ∧
    (step (run 7 [.startSession 2, .startCapture]) .stopReq).sigTermSent
        = true ∧
    (step (run 7 [.startSession 2, .startCapture]) .stopReq).isMonitoring
        = false ∧
    (step (step (run 7 [.startSession 2, .startCapture]) .stopReq)
        .deepRearm).deepProbeActive = false := by
  have h := c6_stop_signals_and_stops_loops
    (run 7 [.startSession 2, .startCapture]) (by decide)
  exact ⟨by decide, h.1, h.2.1, h.2.2.2.2⟩

/-! ## Claim C9: the shallow availability probe -/

/-- Claim C9: checkStreamAvailability never throws — it always resolves to a
boolean — and resolves true exactly when the header-only request returns
HTTP status 200 or 206; every timeout and connection error resolves false. -/
theorem c9_probe_resolves_boolean_status_criterion (e : ProbeEvent) :
    (checkStreamAvailability e = true ↔
       ∃ c, e = .response c ∧ (c = 200 ∨ c = 206)) ∧
    checkStreamAvailability .connError = false ∧
    checkStreamAvailability .reqTimeout = false ∧
    checkStreamAvailability .overallTimeout = false := by
  refine ⟨?_, rfl, rfl, rfl⟩
  cases e with
  | response c => simp [checkStreamAvailability]
  | connError => simp [checkStreamAvailability]
  | reqTimeout => simp [checkStreamAvailability]
  | overallTimeout => simp [checkStreamAvailability]

/-! ## Claim C10: getStatus before any startRecording -/

/-- Claim C10: on a recorder on which startRecording has never been called,
totalDurationMs is 0 and the progress field of getStatus is the unguarded
0/0, which is NaN under JavaScript number semantics — not a finite
percentage such as 0. -/
theorem c10_initial_status_progress_is_nan (sid : Nat) :
    (initState sid).totalDurationMs = 0 ∧
    (getStatus (initState sid)).progress = JsNum.nan ∧
    (getStatus (initState sid)).progress ≠ JsNum.num 0 := by
  have h2 : (getStatus (initState sid)).progress = JsNum.nan := rfl
  refine ⟨rfl, h2, ?_⟩
  rw [h2]
  intro hh
  exact JsNum.noConfusion hh

end FfmpegDemo
